import Mathlib

/-!
Shallow embedding of `quodlibet/ext/events/synchronize_to_playlist.py`
(the SyncToPlaylist plugin): sync-list persistence, path rewriting and
M3U export, together with theorems checking the specification's claims.

File contents are modelled as an explicit `FileState`; Python string
operations (`str.join`, `file.readlines`, `str.replace`) are modelled by
small Lean functions with the same semantics.
-/

deriving instance DecidableEq for Except

namespace SyncToPlaylist

/-- State of one file on disk: absent, present with a given text content,
or a file whose access raises `OSError`. -/
inductive FileState where
  | missing
  | present (content : String)
  | ioError
deriving DecidableEq, Repr

/-- Python `sep.join(xs)` for a list of strings. -/
def pyJoin (sep : String) : List String → String
  | [] => ""
  | [x] => x
  | x :: y :: rest => x ++ sep ++ pyJoin sep (y :: rest)

/-- Split a character list at every occurrence of `c` (the fragments do
not contain `c`; `n` occurrences give `n + 1` fragments). -/
def splitChar (c : Char) : List Char → List (List Char)
  | [] => [[]]
  | a :: rest =>
    if a = c then [] :: splitChar c rest
    else
      match splitChar c rest with
      | [] => [[a]]
      | h :: t => (a :: h) :: t

/-- Python `s.split(c)` for a one-character separator. -/
def pySplit (s : String) (c : Char) : List String :=
  (splitChar c s.toList).map List.asString

/-- Auxiliary for `pyReadlines`: re-attach the `"\n"` terminator to every
line except the last, dropping a trailing empty fragment. -/
def relinesAux : List String → List String
  | [] => []
  | [last] => if last = "" then [] else [last]
  | p :: rest => (p ++ "\n") :: relinesAux rest

/-- Python `f.readlines()` on a file whose content is `s`: the lines of
`s`, each keeping its trailing newline (the final line may lack one). -/
def pyReadlines (s : String) : List String :=
  relinesAux (pySplit s '\n')

/-- Python `s.replace(old, new)` for a one-character `old`, which equals
`new.join(s.split(old))`. -/
def pyReplace (s : String) (old : Char) (new : String) : String :=
  pyJoin new (pySplit s old)

/-- Python `s.strip()`: remove leading and trailing whitespace. -/
def pyStrip (s : String) : String :=
  (((s.toList.dropWhile Char.isWhitespace).reverse.dropWhile Char.isWhitespace).reverse).asString

/-! ### Sync-list persistence (`write_sync_*` / `read_sync_*`) -/

/-- `write_sync_playlists` (lines 535-554): if the file does not exist and
there are no names, do nothing; otherwise overwrite the file with
`"/n".join(playlist_names)` (note the literal `/n` separator in the
source). An `OSError` during the write is swallowed, leaving the file
unchanged. -/
def write_sync_playlists (fs : FileState) (playlist_names : List String) : FileState :=
  match fs with
  | .ioError => fs
  | .missing => if playlist_names.length = 0 then fs else .present (pyJoin "/n" playlist_names)
  | .present _ => .present (pyJoin "/n" playlist_names)

/-- `write_sync_queries` (lines 556-571): same logic as
`write_sync_playlists`, on the queries file. -/
def write_sync_queries (fs : FileState) (query_names : List String) : FileState :=
  match fs with
  | .ioError => fs
  | .missing => if query_names.length = 0 then fs else .present (pyJoin "/n" query_names)
  | .present _ => .present (pyJoin "/n" query_names)

/-- `read_sync_playlists` (lines 573-582): `[]` when the file does not
exist, `readlines()` of the content otherwise; on `OSError` the handler
falls off the end of the function and Python returns `None`, modelled as
`none`. -/
def read_sync_playlists : FileState → Option (List String)
  | .missing => some []
  | .present c => some (pyReadlines c)
  | .ioError => none

/-- `read_sync_queries` (lines 584-593): same logic as
`read_sync_playlists`, on the queries file. -/
def read_sync_queries : FileState → Option (List String)
  | .missing => some []
  | .present c => some (pyReadlines c)
  | .ioError => none

/-! ### Saved-search file reader (`_get_queries`) -/

/-- A parsed query; `Query(string)` is modelled by the stripped query
string it was built from. -/
structure Query where
  string : String
deriving DecidableEq, Repr

/-- A Python `dict` from names to queries, as an association list with
insertion order and in-place update on an existing key. -/
abbrev QueryDict := List (String × Query)

/-- Python `d[k] = v`: update the existing binding in place, or append a
new one. -/
def dictInsert : QueryDict → String → Query → QueryDict
  | [], k, v => [(k, v)]
  | p :: rest, k, v => if p.1 = k then (k, v) :: rest else p :: dictInsert rest k v

/-- Python `d.get(k)`. -/
def dictGet : QueryDict → String → Option Query
  | [], _ => none
  | p :: rest, k => if p.1 = k then some p.2 else dictGet rest k

/-- The loop of `_get_queries` (lines 207-210): iterate the file's lines,
pairing each query line with the following name line via `next`; a query
line with no following name line makes `next` raise `StopIteration`. -/
def get_queries_lines : List String → QueryDict → Except String QueryDict
  | [], d => .ok d
  | [_], _ => .error "StopIteration"
  | q :: n :: rest, d => get_queries_lines rest (dictInsert d (pyStrip n) ⟨pyStrip q⟩)

/-- `_get_queries` (lines 203-211): `{}` when the saved-search file does
not exist, else the dict built from its line pairs. There is no handler,
so an `OSError` propagates. -/
def get_queries (fs : FileState) : Except String QueryDict :=
  match fs with
  | .missing => .ok []
  | .present c => get_queries_lines (pyReadlines c) []
  | .ioError => .error "OSError"

/-! ### Path rewriting (`__get_song_files`, lines 507-533) -/

/-- POSIX `os.path.isabs`: the path starts with `/`. -/
def isabs (p : String) : Bool :=
  match p.toList with
  | '/' :: _ => true
  | _ => false

/-- Whether a path ends with `/` (for `posixpath.join`). -/
def endsWithSlash (p : String) : Bool :=
  match p.toList.getLast? with
  | some '/' => true
  | _ => false

/-- Component list of `posixpath.normpath` on an absolute path: split on
`/`, drop empty and `.` components, and let `..` pop the previous
component. -/
def normparts (p : String) : List String :=
  (pySplit p '/').foldl
    (fun acc c =>
      if c = "" || c = "." then acc
      else if c = ".." then acc.dropLast
      else acc ++ [c]) []

/-- Length of the common prefix of two component lists. -/
def commonLen : List String → List String → Nat
  | a :: as, b :: bs => if a = b then commonLen as bs + 1 else 0
  | _, _ => 0

/-- `posixpath.relpath(path, start)` for absolute `path` and `start`:
strip the common component prefix, go up with `..` for each remaining
`start` component, and descend into the remaining `path` components. -/
def relpath (path start : String) : String :=
  let pl := normparts path
  let sl := normparts start
  let i := commonLen sl pl
  let rel := List.replicate (sl.length - i) ".." ++ pl.drop i
  if rel = [] then "." else pyJoin "/" rel

/-- `posixpath.join(a, b)`. -/
def joinPath (a b : String) : String :=
  if isabs b then b
  else if a = "" || endsWithSlash a then a ++ b
  else a ++ "/" ++ b

/-- The path-rewriting logic inside `__get_song_files` (lines 516-520):
with a non-empty `remove_root` the path becomes relative to it, and a
non-empty `new_root` is then joined in front; an empty `remove_root`
leaves the path untouched. -/
def rewritePath (path remove_root new_root : String) : String :=
  if remove_root.length > 0 then
    let p := relpath path remove_root
    if new_root.length > 0 then joinPath new_root p else p
  else path

/-! ### Song records and `__get_song_files` -/

/-- A song as seen through the calls the plugin makes on it:
`"~uri" in song`, `song("~filename")`, `song("title")`,
`song("~people")` (a newline-joined list of people),
`song("~title~version")` and `song("~#length")`. -/
structure Song where
  isRemote : Bool
  filename : String
  title : String
  people : String
  titleVersion : String
  length : Int
deriving DecidableEq, Repr

/-- The per-song dict `{path, title, length}` built by
`__get_song_files`. -/
structure ExportedFile where
  path : String
  title : String
  length : Int
deriving DecidableEq, Repr

/-- `__get_song_files` (lines 507-533): a remote song keeps its raw
filename and plain title with length `-1`; a local song gets its path
rewritten, title `"<people with newlines replaced by ', '> - <title with
version>"` and its integer length. -/
def get_song_files (songs : List Song) (remove_root new_root : String) : List ExportedFile :=
  songs.map fun song =>
    if song.isRemote then
      { path := song.filename, title := song.title, length := -1 }
    else
      { path := rewritePath song.filename remove_root new_root
        title := pyReplace song.people '\n' ", " ++ " - " ++ song.titleVersion
        length := song.length }

/-! ### M3U serialization (`__m3u_export`, lines 492-505) -/

/-- The text accumulated by `__m3u_export`: start from the header line and
append, per file, the `#EXTINF` line and the path line. -/
def m3u_text (files : List ExportedFile) : String :=
  files.foldl
    (fun text f =>
      text ++ ("#EXTINF:" ++ toString f.length ++ "," ++ f.title ++ "\n") ++ (f.path ++ "\n"))
    "#EXTM3U\n"

/-- `__m3u_export`: when the `open` succeeds the whole document is written
in a single `write` call (of the UTF-8 encoding of the text) and no
dialog is shown; when it fails, nothing is written and the
"Unable to export playlist" dialog is shown. Returned as the list of
write calls performed and the optional dialog title. -/
def m3u_export (openOk : Bool) (files : List ExportedFile) : List String × Option String :=
  if openOk then ([m3u_text files], none)
  else ([], some "Unable to export playlist")

/-- Specification-side text of one M3U entry. -/
def entryLines (f : ExportedFile) : String :=
  "#EXTINF:" ++ toString f.length ++ "," ++ f.title ++ "\n" ++ f.path ++ "\n"

/-- Specification-side M3U document: header line, then the entries'
lines in order. -/
def entriesText : List ExportedFile → String
  | [] => ""
  | f :: rest => entryLines f ++ entriesText rest

/-- Specification-side full M3U document. -/
def m3u_doc (files : List ExportedFile) : String :=
  "#EXTM3U\n" ++ entriesText files

/-! ### Export orchestration (`_check_valid_inputs`, `_run_export`,
`_export_all`, `PluginPreferences`, toggle handlers) -/

/-- The three plugin configuration values kept in the config store. -/
structure Config where
  path : String
  removeRoot : String
  newRoot : String
deriving DecidableEq, Repr

/-- `_check_valid_inputs` (lines 343-373): an empty destination shows the
"No destination path provided" dialog, a relative one shows "Export path
is not absolute". `some title` is the dialog shown, `none` means the
inputs are valid. -/
def check_valid_inputs (destination_path : String) : Option String :=
  if destination_path = "" then some "No destination path provided"
  else if isabs destination_path = false then some "Export path is not absolute"
  else none

/-- The data `_export_all` consumes: the names of the existing playlists,
the saved-search file and the two sync-list files. -/
structure ExportEnv where
  playlistNames : List String
  queryFile : FileState
  syncPlaylists : FileState
  syncQueries : FileState
deriving DecidableEq, Repr

/-- Outcome of `_export_all`: which playlists and queries were exported
(one M3U file each), the exception raised if any, and the state of the
two sync-list files afterwards. -/
structure ExportAllResult where
  exportedPlaylists : List String
  exportedQueries : List String
  raised : Option String
  syncPlaylistsAfter : FileState
  syncQueriesAfter : FileState
deriving DecidableEq, Repr

/-- `_export_all` (lines 419-438): read the sync playlists, intersect
with the existing playlist names and export each enabled one, then the
same for queries; the sync-list files themselves are never written back.
A `None` from a reader makes `set.intersection(None)` raise `TypeError`,
and an error from `_get_queries` propagates. -/
def export_all (env : ExportEnv) : ExportAllResult :=
  match read_sync_playlists env.syncPlaylists with
  | none => ⟨[], [], some "TypeError", env.syncPlaylists, env.syncQueries⟩
  | some sp =>
    let enabledP := (env.playlistNames.filter (fun n => sp.contains n)).dedup
    match get_queries env.queryFile with
    | .error e => ⟨enabledP, [], some e, env.syncPlaylists, env.syncQueries⟩
    | .ok qd =>
      match read_sync_queries env.syncQueries with
      | none => ⟨enabledP, [], some "TypeError", env.syncPlaylists, env.syncQueries⟩
      | some sq =>
        ⟨enabledP, ((qd.map Prod.fst).filter (fun n => sq.contains n)).dedup, none,
          env.syncPlaylists, env.syncQueries⟩

/-- The plugin state `_run_export` touches: the persistent config and the
export environment. -/
structure RunState where
  config : Config
  env : ExportEnv
deriving DecidableEq, Repr

/-- `_run_export` (lines 396-417): first the three tmp values are saved
into the config, then the inputs are validated; an invalid destination
shows its dialog and returns before `_export_all` runs. Result: the new
state, the dialogs shown, and the export run (`none` when halted). -/
def run_export (tmpPath tmpRemoveRoot tmpNewRoot : String) (st : RunState) :
    RunState × List String × Option ExportAllResult :=
  let st1 : RunState := { st with config := ⟨tmpPath, tmpRemoveRoot, tmpNewRoot⟩ }
  match check_valid_inputs tmpPath with
  | some title => (st1, [title], none)
  | none => (st1, [], some (export_all st1.env))

/-- The sync-list reconciliation in `PluginPreferences` (lines 72-76 and
96-100): read the sync queries, intersect with the currently existing
query names, and immediately write the intersection back. A `None` from
the reader makes `set(...).intersection(None)` raise `TypeError`. -/
def preferences_load_queries (existing : List String) (fs : FileState) :
    Except String (List String × FileState) :=
  match read_sync_queries fs with
  | none => .error "TypeError"
  | some sq =>
    let inter := (existing.filter (fun n => sq.contains n)).dedup
    .ok (inter, write_sync_queries fs inter)

/-- Same reconciliation for the playlists (lines 96-100). -/
def preferences_load_playlists (existing : List String) (fs : FileState) :
    Except String (List String × FileState) :=
  match read_sync_playlists fs with
  | none => .error "TypeError"
  | some sp =>
    let inter := (existing.filter (fun n => sp.contains n)).dedup
    .ok (inter, write_sync_playlists fs inter)

/-- `_toggle_save_query` (lines 187-193): read the sync list and append
the name when the box became active; when it became inactive, evaluate
`list(set(save_queries).remove(name))` — `set.remove` returns `None`
(or raises `KeyError` when the name is absent), so `list(None)` raises
`TypeError`. When the reader returned `None`, `append` or `set` raise. -/
def toggle_save_query (active : Bool) (name : String) (fs : FileState) :
    Except String FileState :=
  match read_sync_queries fs with
  | none => if active then .error "AttributeError" else .error "TypeError"
  | some names =>
    if active then .ok (write_sync_queries fs (names ++ [name]))
    else if names.contains name then .error "TypeError" else .error "KeyError"

/-- `_toggle_save_playlist` (lines 195-201): same logic as
`_toggle_save_query`, on the playlists file. -/
def toggle_save_playlist (active : Bool) (name : String) (fs : FileState) :
    Except String FileState :=
  match read_sync_playlists fs with
  | none => if active then .error "AttributeError" else .error "TypeError"
  | some names =>
    if active then .ok (write_sync_playlists fs (names ++ [name]))
    else if names.contains name then .error "TypeError" else .error "KeyError"

/-- The `(stripped name, stripped query)` pairs of a line list: each
query line paired with the name line that follows it; a trailing
unpaired line yields no pair. -/
def linePairs : List String → List (String × String)
  | q :: n :: rest => (pyStrip n, pyStrip q) :: linePairs rest
  | _ => []

/-- The dict built from such pairs by Python-dict insertion. -/
def dictOfPairs (ps : List (String × String)) : QueryDict :=
  ps.foldl (fun d p => dictInsert d p.1 ⟨p.2⟩) []

/-- Specification-side lookup: the query of the last pair bearing a given
name. -/
def lastQueryFor (ps : List (String × String)) (name : String) : Option Query :=
  (ps.reverse.find? (fun p => p.1 == name)).map (fun p => ⟨p.2⟩)


theorem m3u_foldl (files : List ExportedFile) :
    ∀ init : String,
      files.foldl
        (fun text f =>
          text ++ ("#EXTINF:" ++ toString f.length ++ "," ++ f.title ++ "\n") ++ (f.path ++ "\n"))
        init = init ++ entriesText files := by
  induction files with
  | nil => intro init; simp [entriesText]
  | cons f rest ih =>
      intro init
      simp only [List.foldl_cons, ih, entriesText, entryLines]
      simp [String.append_assoc]

theorem m3u_text_eq_doc (files : List ExportedFile) : m3u_text files = m3u_doc files := by
  simp [m3u_text, m3u_doc, m3u_foldl]

/-- C1: when the output file opens successfully, `__m3u_export` performs a
single write, of the UTF-8 encoding of exactly the `#EXTM3U` header line
followed, for each record in order, by the `#EXTINF:<duration>,<title>`
line and the `<path>` line, each terminated by a newline; on the single
record `{path := "/a/b.mp3", title := "X - Y", duration := 180}` the text
is exactly `"#EXTM3U\n#EXTINF:180,X - Y\n/a/b.mp3\n"`. -/
theorem m3u_export_single_write_exact (files : List ExportedFile) (openOk : Bool)
    (h : openOk = true) :
    (m3u_export openOk files).1 = [m3u_doc files] ∧
    (m3u_export openOk files).1.map String.toUTF8 = [(m3u_doc files).toUTF8] ∧
    m3u_text [{ path := "/a/b.mp3", title := "X - Y", length := 180 }] =
      "#EXTM3U\n#EXTINF:180,X - Y\n/a/b.mp3\n" := by
  subst h
  refine ⟨?_, ?_, by decide⟩
  · simp [m3u_export, m3u_text_eq_doc]
  · simp [m3u_export, m3u_text_eq_doc]

theorem m3u_export_single_write_exact_witness :
    (m3u_export true [{ path := "/a/b.mp3", title := "X - Y", length := 180 }]).1 =
      [m3u_doc [{ path := "/a/b.mp3", title := "X - Y", length := 180 }]] ∧
    (m3u_export true [{ path := "/a/b.mp3", title := "X - Y", length := 180 }]).1.map
        String.toUTF8 =
      [(m3u_doc [{ path := "/a/b.mp3", title := "X - Y", length := 180 }]).toUTF8] ∧
    m3u_text [{ path := "/a/b.mp3", title := "X - Y", length := 180 }] =
      "#EXTM3U\n#EXTINF:180,X - Y\n/a/b.mp3\n" :=
  m3u_export_single_write_exact [{ path := "/a/b.mp3", title := "X - Y", length := 180 }] true rfl

/-- C2: the path rewriter of `__get_song_files` returns the path unchanged
when `remove_root` is empty; with a non-empty `remove_root` it takes the
path relative to it (standard POSIX relative-path semantics, `..`
segments included) and joins a non-empty `new_root` in front; in
particular `rewrite("/music/rock/song.mp3", "/music", "/new")` is
`"/new/rock/song.mp3"`, and a path not under `remove_root` yields `..`
segments. -/
theorem rewritePath_spec (p rr nr : String) (_hp : isabs p = true)
    (_hrr : 0 < rr.length → isabs rr = true) :
    rewritePath p "" nr = p ∧
    (0 < rr.length →
      rewritePath p rr nr =
        if 0 < nr.length then joinPath nr (relpath p rr) else relpath p rr) ∧
    rewritePath "/music/rock/song.mp3" "/music" "/new" = "/new/rock/song.mp3" ∧
    relpath "/a/x.mp3" "/b/c" = "../../a/x.mp3" := by
  refine ⟨by simp [rewritePath], ?_, by decide, by decide⟩
  intro h
  simp [rewritePath, h]

theorem rewritePath_spec_witness :
    rewritePath "/music/rock/song.mp3" "" "/new" = "/music/rock/song.mp3" ∧
    (0 < "/music".length →
      rewritePath "/music/rock/song.mp3" "/music" "/new" =
        if 0 < "/new".length then joinPath "/new" (relpath "/music/rock/song.mp3" "/music")
        else relpath "/music/rock/song.mp3" "/music") ∧
    rewritePath "/music/rock/song.mp3" "/music" "/new" = "/new/rock/song.mp3" ∧
    relpath "/a/x.mp3" "/b/c" = "../../a/x.mp3" :=
  rewritePath_spec "/music/rock/song.mp3" "/music" "/new" (by decide) (fun _ => by decide)

/-- C3 (the code evaluated at the failing input): saving the valid names
`["A", "B"]` stores the single line `"A/nB"` (the source joins with the
literal two characters `/n`), and loading it back with `readlines` yields
`["A/nB"]`, whose intersection with `{A, B}` is empty rather than
`{A, B}`. -/
theorem sync_roundtrip_fails_on_two_names :
    write_sync_queries .missing ["A", "B"] = .present "A/nB" ∧
    read_sync_queries (write_sync_queries .missing ["A", "B"]) = some ["A/nB"] ∧
    ["A/nB"].filter (fun x => x == "A" || x == "B") = [] ∧
    ("A/nB" : String) ≠ "A\nB" := by decide

/-- C4 (the code evaluated at the failing input): with the file absent and
no names, no write happens; but saving `["A", "B"]` writes the single
line `"A/nB"` instead of one name per line (`"A\nB"`). -/
theorem write_sync_skips_empty_but_joins_with_slash_n :
    write_sync_playlists .missing [] = .missing ∧
    write_sync_queries .missing [] = .missing ∧
    write_sync_playlists .missing ["A", "B"] = .present "A/nB" ∧
    write_sync_queries .missing ["A", "B"] = .present "A/nB" ∧
    ("A/nB" : String) ≠ "A\nB" := by decide

/-- C5 counterexample: on an I/O error the sync-list reader does not
produce an empty sequence — the swallowed `OSError` makes the Python
function return `None` (modelled `none`), which is not `some []`. -/
theorem read_sync_ioerror_returns_none :
    read_sync_playlists .ioError = none ∧
    read_sync_playlists .ioError ≠ some [] ∧
    read_sync_queries .ioError ≠ some [] := by decide

/-- C5 amended: loading a sync list returns the empty sequence when the
file does not exist; on an I/O error the exception is swallowed but the
function returns `None` (no sequence), not an empty sequence. -/
theorem read_sync_missing_empty_error_none :
    read_sync_playlists .missing = some [] ∧
    read_sync_queries .missing = some [] ∧
    read_sync_playlists .ioError = none ∧
    read_sync_queries .ioError = none := by decide

/-- C6 counterexample: for a remote-stream song the built record's title
is the plain song title, not the performers-joined format the claim
states for every record (its duration is indeed `-1`). -/
theorem remote_song_title_is_plain_title :
    get_song_files
        [{ isRemote := true, filename := "http://h/s", title := "T",
           people := "P", titleVersion := "T (v)", length := 300 }] "" "" =
      [{ path := "http://h/s", title := "T", length := -1 }] ∧
    ("T" : String) ≠ "P - T (v)" := by decide

/-- C6 amended: for a non-remote song the record's title is the song's
people joined by `", "` followed by `" - "` and the title with version
suffix, with the integer length as duration; for a remote stream the
title is the plain song title and the duration is `-1`. -/
theorem get_song_files_record_fields (song : Song) (rr nr : String) (ps : List String)
    (hp : pySplit song.people '\n' = ps) :
    get_song_files [song] rr nr =
      [if song.isRemote then
        { path := song.filename, title := song.title, length := -1 }
       else
        { path := rewritePath song.filename rr nr,
          title := pyJoin ", " ps ++ " - " ++ song.titleVersion,
          length := song.length }] := by
  simp only [get_song_files, List.map_cons, List.map_nil, pyReplace, hp]

theorem get_song_files_record_fields_witness :
    get_song_files
        [{ isRemote := false, filename := "/music/rock/s.mp3", title := "T",
           people := "A\nB", titleVersion := "T (v)", length := 10 }] "/music" "/new" =
      [{ path := "/new/rock/s.mp3", title := "A, B - T (v)", length := 10 }] := by
  have h :=
    get_song_files_record_fields
      { isRemote := false, filename := "/music/rock/s.mp3", title := "T",
        people := "A\nB", titleVersion := "T (v)", length := 10 }
      "/music" "/new" ["A", "B"] (by decide)
  rw [h]
  decide

/-- C7 counterexample: a run with an empty destination path still mutates
the configuration — the three tmp values are saved before validation —
so a side effect is performed even though the dialog is shown and the
run halts before exporting. -/
theorem run_export_invalid_still_sets_config :
    (run_export "" "" "" ⟨⟨"/old", "r", "n"⟩, ⟨[], .missing, .missing, .missing⟩⟩).1.config ≠
      (⟨"/old", "r", "n"⟩ : Config) ∧
    (run_export "" "" "" ⟨⟨"/old", "r", "n"⟩, ⟨[], .missing, .missing, .missing⟩⟩).2.1 =
      ["No destination path provided"] ∧
    (run_export "" "" "" ⟨⟨"/old", "r", "n"⟩, ⟨[], .missing, .missing, .missing⟩⟩).2.2 =
      none := by decide

/-- C7 amended: with an empty or relative destination path the run shows
the titled blocking error dialog and halts before resolving or writing —
no export runs, zero output files are written and nothing is raised;
however, the three configuration values are saved from the entry fields
before validation, so that one side effect is performed. -/
theorem run_export_invalid_halts (tmpPath trr tnr : String) (st : RunState)
    (h : tmpPath = "" ∨ isabs tmpPath = false) :
    run_export tmpPath trr tnr st =
      ({ st with config := ⟨tmpPath, trr, tnr⟩ },
       [if tmpPath = "" then "No destination path provided" else "Export path is not absolute"],
       none) := by
  by_cases h0 : tmpPath = ""
  · subst h0; simp [run_export, check_valid_inputs]
  · have h1 : isabs tmpPath = false := by
      rcases h with h | h
      · exact absurd h h0
      · exact h
    simp [run_export, check_valid_inputs, h0, h1]

theorem run_export_invalid_halts_witness :
    run_export "rel" "R" "N" ⟨⟨"a", "b", "c"⟩, ⟨[], .missing, .missing, .missing⟩⟩ =
      ({ (⟨⟨"a", "b", "c"⟩, ⟨[], .missing, .missing, .missing⟩⟩ : RunState) with
          config := ⟨"rel", "R", "N"⟩ },
       [if ("rel" : String) = "" then "No destination path provided"
        else "Export path is not absolute"],
       none) :=
  run_export_invalid_halts "rel" "R" "N" _ (Or.inr (by decide))

/-- C8 counterexample: `_export_all` intersects the loaded sync list with
the existing names but does not re-save the intersection: with `"B"`
persisted and only `"A"` existing, the intersection is empty, yet after
the run the sync file still holds `"B"`, whereas re-saving would have
stored `""`. -/
theorem export_all_does_not_resave :
    (export_all ⟨["A"], .missing, .present "B", .missing⟩).exportedPlaylists = [] ∧
    (export_all ⟨["A"], .missing, .present "B", .missing⟩).syncPlaylistsAfter =
      .present "B" ∧
    write_sync_playlists (.present "B") [] = .present "" ∧
    (FileState.present "B") ≠ .present "" := by decide

/-- C8 amended: the loads in the preferences panel intersect the loaded
names with the currently existing ones and immediately re-save the
intersection; the loads in `_export_all` intersect only for use in the
run and leave the persisted sync-list files unchanged. -/
theorem preferences_resave_export_no_resave (existing : List String) (fs : FileState)
    (sq : List String) (env : ExportEnv) (h : read_sync_queries fs = some sq) :
    preferences_load_queries existing fs =
      .ok ((existing.filter (fun n => sq.contains n)).dedup,
           write_sync_queries fs ((existing.filter (fun n => sq.contains n)).dedup)) ∧
    (export_all env).syncPlaylistsAfter = env.syncPlaylists ∧
    (export_all env).syncQueriesAfter = env.syncQueries := by
  refine ⟨by simp [preferences_load_queries, h], ?_, ?_⟩ <;>
  · cases h1 : read_sync_playlists env.syncPlaylists with
    | none => simp [export_all, h1]
    | some sp =>
      cases h2 : get_queries env.queryFile with
      | error e => simp [export_all, h1, h2]
      | ok qd =>
        cases h3 : read_sync_queries env.syncQueries with
        | none => simp [export_all, h1, h2, h3]
        | some sq2 => simp [export_all, h1, h2, h3]

theorem preferences_resave_export_no_resave_witness :
    preferences_load_queries ["A"] (.present "A") =
      .ok ((["A"].filter (fun n => ["A"].contains n)).dedup,
           write_sync_queries (.present "A")
             ((["A"].filter (fun n => ["A"].contains n)).dedup)) ∧
    (export_all ⟨["A"], .missing, .present "B", .missing⟩).syncPlaylistsAfter =
      (⟨["A"], .missing, .present "B", .missing⟩ : ExportEnv).syncPlaylists ∧
    (export_all ⟨["A"], .missing, .present "B", .missing⟩).syncQueriesAfter =
      (⟨["A"], .missing, .present "B", .missing⟩ : ExportEnv).syncQueries :=
  preferences_resave_export_no_resave ["A"] (.present "A") ["A"]
    ⟨["A"], .missing, .present "B", .missing⟩ (by decide)

/-- C9 counterexample: unchecking `"A"` while `"A"` is persisted raises
`TypeError` (from `list(None)`) instead of persisting the empty list. -/
theorem toggle_uncheck_raises :
    toggle_save_query false "A" (.present "A") = .error "TypeError" ∧
    toggle_save_query false "A" (.present "A") ≠ .ok (.present "") ∧
    toggle_save_playlist false "A" (.present "A") = .error "TypeError" ∧
    toggle_save_playlist false "A" (.present "A") ≠ .ok (.present "") := by decide

/-- C9 amended: whenever a sync checkbox is unchecked the toggle handler
raises — `TypeError` from `list(None)` when the name is in the loaded
list (or the read returned `None`), `KeyError` otherwise — and never
persists anything, so the previously persisted list is left as it was,
not emptied and not shortened. -/
theorem toggle_uncheck_always_raises (name : String) (fs : FileState) :
    (∃ e, toggle_save_query false name fs = .error e) ∧
    (∃ e, toggle_save_playlist false name fs = .error e) := by
  constructor
  · cases h : read_sync_queries fs with
    | none => exact ⟨"TypeError", by simp [toggle_save_query, h]⟩
    | some names =>
      by_cases hm : name ∈ names
      · exact ⟨"TypeError", by simp [toggle_save_query, h, hm]⟩
      · exact ⟨"KeyError", by simp [toggle_save_query, h, hm]⟩
  · cases h : read_sync_playlists fs with
    | none => exact ⟨"TypeError", by simp [toggle_save_playlist, h]⟩
    | some names =>
      by_cases hm : name ∈ names
      · exact ⟨"TypeError", by simp [toggle_save_playlist, h, hm]⟩
      · exact ⟨"KeyError", by simp [toggle_save_playlist, h, hm]⟩

theorem dictGet_insert (d : QueryDict) (k : String) (v : Query) (name : String) :
    dictGet (dictInsert d k v) name = if name = k then some v else dictGet d name := by
  induction d with
  | nil =>
      by_cases h : name = k
      · simp [dictInsert, dictGet, h]
      · simp [dictInsert, dictGet, h, Ne.symm h]
  | cons p rest ih =>
      by_cases hk : p.1 = k
      · by_cases hn : name = k
        · simp [dictInsert, dictGet, hk, hn]
        · simp [dictInsert, dictGet, hk, hn, Ne.symm hn]
      · by_cases hp : p.1 = name
        · have hn : ¬ name = k := fun hkk => hk (hp.trans hkk)
          simp [dictInsert, dictGet, hk, hp, hn]
        · simp [dictInsert, dictGet, hk, hp, ih]

theorem dictGet_foldl_insert (ps : List (String × String)) :
    ∀ (d : QueryDict) (name : String),
      dictGet (ps.foldl (fun d p => dictInsert d p.1 ⟨p.2⟩) d) name =
        Option.orElse ((ps.reverse.find? (fun p => p.1 == name)).map (fun p => ⟨p.2⟩))
          (fun _ => dictGet d name) := by
  induction ps with
  | nil => intro d name; simp
  | cons p rest ih =>
      intro d name
      simp only [List.foldl_cons, ih, List.reverse_cons]
      rw [List.find?_append]
      cases hf : rest.reverse.find? (fun q => q.1 == name) with
      | some q => simp [Option.orElse, hf]
      | none =>
        simp only [hf, Option.orElse, dictGet_insert]
        by_cases hq : p.1 = name
        · simp [List.find?, hq]
        · have hb : (p.1 == name) = false := by simp [hq]
          simp [List.find?, hq, hb, Option.orElse, Ne.symm hq]

theorem get_queries_lines_spec (lines : List String) (d : QueryDict) :
    get_queries_lines lines d =
      if lines.length % 2 = 1 then .error "StopIteration"
      else .ok ((linePairs lines).foldl (fun d p => dictInsert d p.1 ⟨p.2⟩) d) := by
  induction lines, d using get_queries_lines.induct with
  | case1 d => simp [get_queries_lines, linePairs]
  | case2 q d => simp [get_queries_lines, linePairs]
  | case3 q n rest d ih =>
      have hl : (q :: n :: rest).length % 2 = rest.length % 2 := by
        simp only [List.length_cons]
        omega
      rw [show get_queries_lines (q :: n :: rest) d =
            get_queries_lines rest (dictInsert d (pyStrip n) ⟨pyStrip q⟩) from rfl, ih, hl]
      simp [linePairs]

/-- C10 counterexample: a well-formed file of two query/name pairs that
share the stripped name yields a mapping with a single entry (the later
query wins), not one entry per pair. -/
theorem get_queries_duplicate_names_single_entry :
    get_queries (.present "q1\nA\nq2\nA") = .ok [("A", ⟨"q2"⟩)] ∧
    (pyReadlines "q1\nA\nq2\nA").length = 4 ∧
    [("A", (⟨"q2"⟩ : Query))].length ≠ 2 := by decide

/-- C10 amended: reading an existing saved-search file whose line count
is even returns the dict of its query/name pairs keyed by the stripped
name line, one entry per distinct name with the last pair's query
winning; a file whose line count is odd makes the call raise an
unhandled `StopIteration`. -/
theorem get_queries_pairs_or_stop (c : String) :
    get_queries (.present c) =
      (if (pyReadlines c).length % 2 = 1 then .error "StopIteration"
       else .ok (dictOfPairs (linePairs (pyReadlines c)))) ∧
    ∀ name, dictGet (dictOfPairs (linePairs (pyReadlines c))) name =
      lastQueryFor (linePairs (pyReadlines c)) name := by
  constructor
  · rw [show get_queries (.present c) = get_queries_lines (pyReadlines c) [] from rfl,
        get_queries_lines_spec]
    rfl
  · intro name
    rw [dictOfPairs, dictGet_foldl_insert]
    cases hf : (linePairs (pyReadlines c)).reverse.find? (fun p => p.1 == name) <;>
      simp [lastQueryFor, hf, dictGet, Option.orElse]

end SyncToPlaylist
